import Mathlib

/-!
Shallow embedding of the CineSuggest movie-recommendation application
(`src/app.py`): the relational data model (users, movies, genres, languages,
reviews and their association sets) and the request handlers the claims are
about (`recommendations`, `movie_detail` POST, `edit_review`, `register`,
`toggle_watchlist`, `survey` POST), followed by theorems settling the claims.
Entity relationships are carried as lists of entities (mirroring the ORM
relationship collections, in query order); the scorer converts them to id
sets exactly as the Python code builds set comprehensions of ids.
-/

namespace CineSuggest

/-- A `Genre` row: `id` primary key and unique `name`. -/
structure Genre where
  id : Nat
  name : String
deriving DecidableEq

/-- A `Language` row: `id` primary key and unique `name`. -/
structure Language where
  id : Nat
  name : String
deriving DecidableEq

/-- A `Movie` row with its many-to-many `genres` and `languages` collections. -/
structure Movie where
  id : Nat
  title : String
  genres : List Genre
  languages : List Language
deriving DecidableEq

/-- A Python value as stored in a `Review.rating` column slot: the code path
through `movie_detail` stores `int(rating)` while `edit_review` assigns the
raw form string, so the embedded value type distinguishes the two. -/
inductive PyVal where
  | intVal : Int → PyVal
  | strVal : String → PyVal
deriving DecidableEq

/-- A `Review` row: rating, optional text, owning user and movie ids. -/
structure Review where
  id : Nat
  rating : PyVal
  text : Option String
  userId : Nat
  movieId : Nat
deriving DecidableEq

/-- A `User` row with its preference collections, mirroring the ORM
relationships `preferred_genres`, `preferred_languages`, `liked_movies`,
`watchlist` (the last as a finite set, as the association table keyed by
(user_id, movie_id) admits no duplicates). -/
structure User where
  id : Nat
  username : String
  hasCompletedSurvey : Bool
  preferredGenres : List Genre
  preferredLanguages : List Language
  likedMovies : List Movie
  watchlist : Finset Movie
  bio : Option String
deriving DecidableEq

/-- `{genre.id for genre in movie.genres}`. -/
def movieGenreIds (m : Movie) : Finset Nat := (m.genres.map Genre.id).toFinset

/-- The id set of a movie's languages. -/
def movieLangIds (m : Movie) : Finset Nat := (m.languages.map Language.id).toFinset

/-- `{genre.id for genre in current_user.preferred_genres}`. -/
def userPrefGenreIds (u : User) : Finset Nat := (u.preferredGenres.map Genre.id).toFinset

/-- `{lang.id for lang in current_user.preferred_languages}`. -/
def userPrefLangIds (u : User) : Finset Nat := (u.preferredLanguages.map Language.id).toFinset

/-- `{genre.id for movie in current_user.liked_movies for genre in movie.genres}`. -/
def seedMovieGenreIds (u : User) : Finset Nat :=
  (u.likedMovies.flatMap (fun m => m.genres.map Genre.id)).toFinset

/-- `{movie.id for movie in current_user.liked_movies}`. -/
def likedMovieIds (u : User) : Finset Nat := (u.likedMovies.map Movie.id).toFinset

/-- The per-candidate score of the loop body in `recommendations`:
`len(direct_matches) * 10 + len(indirect_matches) * 5`. -/
def movieScore (prefG seedG : Finset Nat) (m : Movie) : Nat :=
  (prefG ∩ movieGenreIds m).card * 10 + (seedG ∩ movieGenreIds m).card * 5

/-- `Movie.query.join(Movie.languages).filter(Language.id.in_(user_pref_lang_ids))`:
movies having at least one language whose id is preferred.  (The SQL join can
yield a movie row once per matching language; the Python dict keyed by movie
collapses those duplicates, so filtering the catalog once per movie is the
same candidate set in the same first-occurrence order.) -/
def candidateMovies (catalog : List Movie) (u : User) : List Movie :=
  catalog.filter (fun m => decide ((movieLangIds m ∩ userPrefLangIds u).Nonempty))

/-- The loop of `recommendations`: skip liked movies, score, keep positive
scores, in catalog order (matching dict insertion order). -/
def scoredList (catalog : List Movie) (u : User) : List (Movie × Nat) :=
  (candidateMovies catalog u).filterMap (fun m =>
    if m.id ∈ likedMovieIds u then none
    else if 0 < movieScore (userPrefGenreIds u) (seedMovieGenreIds u) m then
      some (m, movieScore (userPrefGenreIds u) (seedMovieGenreIds u) m)
    else none)

/-- Insert a scored pair into a descending-by-score list, before the first
strictly smaller score (so equal scores keep their original order, matching
Python's stable `sorted(..., reverse=True)`). -/
def insertDesc (p : Movie × Nat) : List (Movie × Nat) → List (Movie × Nat)
  | [] => [p]
  | q :: qs => if q.2 ≤ p.2 then p :: q :: qs else q :: insertDesc p qs

/-- Stable sort by descending score:
`sorted(recommendations_scores.items(), key=lambda item: item[1], reverse=True)`. -/
def sortDesc : List (Movie × Nat) → List (Movie × Nat)
  | [] => []
  | p :: ps => insertDesc p (sortDesc ps)

/-- The ranked recommendation list handed to the template. -/
def recommendList (catalog : List Movie) (u : User) : List (Movie × Nat) :=
  sortDesc (scoredList catalog u)

/-- Outcome of the `recommendations` route: either the redirect to the survey
or the rendered page with its ranked list. -/
inductive RecsResult where
  | redirectSurvey : RecsResult
  | page : List (Movie × Nat) → RecsResult
deriving DecidableEq

/-- The `recommendations` route: users who have not completed the survey are
redirected to the survey before any scoring happens. -/
def recommendationsRoute (catalog : List Movie) (u : User) : RecsResult :=
  if u.hasCompletedSurvey then RecsResult.page (recommendList catalog u)
  else RecsResult.redirectSurvey

/-- The form fields of a review submission or edit, as Flask sees them:
a field is `none` when absent from the posted form. -/
structure ReviewForm where
  rating : Option String
  text : Option String
deriving DecidableEq

/-- The observable outcome of a POST handler: a flash message (with its
category) followed by a redirect, a rendered page, or an HTTP error status
(from `abort`, a missing-key `request.form[...]` lookup, or an uncaught
exception). -/
inductive Response where
  | flashRedirect : String → String → Response
  | page : Response
  | httpError : Nat → Response
deriving DecidableEq

/-- The value of a non-negative decimal digit string. -/
def pyDigits (cs : List Char) : Nat :=
  cs.foldl (fun acc c => acc * 10 + (c.toNat - 48)) 0

/-- Python's built-in `int(...)` applied to a form string: an optional minus
sign followed by decimal digits parses; anything else raises `ValueError`
(modelled as `none`). -/
def pyInt (s : String) : Option Int :=
  match s.toList with
  | [] => none
  | '-' :: rest =>
    if rest ≠ [] ∧ rest.all Char.isDigit then some (-(Int.ofNat (pyDigits rest))) else none
  | cs =>
    if cs.all Char.isDigit then some (Int.ofNat (pyDigits cs)) else none

/-- The POST branch of `movie_detail(movie_id)` for the logged-in user
`userId`: reject a duplicate review, reject a missing or empty rating
(Python's `if not rating`), convert the rating with `int(...)` (a
non-numeric string raises, surfacing as a 500), else persist the new
review at the end of the table. -/
def movieDetailPost (reviews : List Review) (userId movieId nextId : Nat)
    (form : ReviewForm) : Response × List Review :=
  match reviews.find? (fun r => r.movieId == movieId && r.userId == userId) with
  | some _ =>
      (Response.flashRedirect
        "You have already reviewed this movie. You can edit your existing review." "error",
       reviews)
  | none =>
    match form.rating with
    | none => (Response.flashRedirect "You must provide a rating." "error", reviews)
    | some s =>
      if s == "" then
        (Response.flashRedirect "You must provide a rating." "error", reviews)
      else
        match pyInt s with
        | none => (Response.httpError 500, reviews)
        | some n =>
            (Response.flashRedirect "Your review has been submitted!" "success",
             reviews ++ [⟨nextId, PyVal.intVal n, form.text, userId, movieId⟩])

/-- What the commit in `edit_review` persists for the rating: the handler
assigns the raw form string (no `int(...)` conversion), and the write lands
in a column declared `db.Column(db.Integer)`.  SQLite's INTEGER affinity
converts well-formed integer text (such as "4") to INTEGER storage, read
back as a Python int; any other text (such as "abc") is kept as TEXT and
reads back as a str.  (Real-number text would convert to REAL storage —
no claim exercises that case, and no float enters the model.) -/
def sqliteIntegerAffinity (s : String) : PyVal :=
  match pyInt s with
  | some n => PyVal.intVal n
  | none => PyVal.strVal s

/-- The POST branch of `edit_review(review_id)`: 404 when the review id is
unknown, 403 when the author is not the current user; then
`review.rating = request.form['rating']` and
`review.text = request.form['review_text']` — bracket lookups that raise
`BadRequestKeyError` (HTTP 400) when the field is absent.  The raw rating
string then goes through the commit into the INTEGER-affinity column, so the
persisted rating is an integer exactly when the text is a well-formed
integer literal. -/
def editReviewPost (reviews : List Review) (currentUserId reviewId : Nat)
    (form : ReviewForm) : Response × List Review :=
  match reviews.find? (fun r => r.id == reviewId) with
  | none => (Response.httpError 404, reviews)
  | some rv =>
    if rv.userId ≠ currentUserId then (Response.httpError 403, reviews)
    else
      match form.rating, form.text with
      | some rs, some ts =>
          (Response.flashRedirect "Your review has been updated!" "success",
           reviews.map (fun r =>
             if r.id == reviewId then
               { r with rating := sqliteIntegerAffinity rs, text := some ts }
             else r))
      | _, _ => (Response.httpError 400, reviews)

/-- The POST branch of `register`: a duplicate username flashes an error and
redirects back; otherwise the new user is created (with the survey flag
unset) and the handler flashes success and redirects to the survey. -/
def registerPost (users : List User) (username : String) (_password : String) :
    Response × List User :=
  if users.any (fun u => u.username == username) then
    (Response.flashRedirect "Username already exists." "error", users)
  else
    (Response.flashRedirect "Account created! Please complete the survey to get started."
       "success",
     users ++ [{ id := users.length + 1, username := username, hasCompletedSurvey := false,
                 preferredGenres := [], preferredLanguages := [], likedMovies := [],
                 watchlist := ∅, bio := none }])

/-- `toggle_watchlist(movie_id)`: remove the movie when present in the
user's watchlist, add it when absent; nothing else on the user changes. -/
def toggleWatchlist (u : User) (m : Movie) : User :=
  if m ∈ u.watchlist then { u with watchlist := u.watchlist.erase m }
  else { u with watchlist := insert m u.watchlist }

/-- The lookup tables the survey handler queries (`Genre.query`,
`Language.query`, `Movie.query`). -/
structure Catalog where
  genres : List Genre
  languages : List Language
  movies : List Movie
deriving DecidableEq

/-- The POST branch of `survey`: each preference relationship is ASSIGNED
(`current_user.preferred_... = Model.query.filter(Model.id.in_(ids)).all()`),
replacing whatever was stored before, and the survey flag is set. -/
def surveyPost (cat : Catalog) (u : User) (langIds genreIds movieIds : List Nat) : User :=
  { u with
    preferredLanguages := cat.languages.filter (fun l => langIds.contains l.id)
    preferredGenres := cat.genres.filter (fun g => genreIds.contains g.id)
    likedMovies := cat.movies.filter (fun m => movieIds.contains m.id)
    hasCompletedSurvey := true }

/-- At most one review per (user, movie) pair — the application-layer
invariant the duplicate-review check maintains. -/
def atMostOnePerPair (reviews : List Review) : Prop :=
  reviews.Pairwise (fun a b => ¬(a.userId = b.userId ∧ a.movieId = b.movieId))

/-! Concrete fixtures used by witnesses and counterexamples, taken from the
seeded mock data and the spec's scenarios. -/

def gAction : Genre := ⟨1, "Action"⟩
def gDrama : Genre := ⟨2, "Drama"⟩
def gCrime : Genre := ⟨3, "Crime"⟩
def lEnglish : Language := ⟨1, "English"⟩
def lHindi : Language := ⟨2, "Hindi"⟩
def mvA : Movie := ⟨1, "A", [gAction], [lEnglish]⟩
def mvB : Movie := ⟨2, "B", [gAction], [lHindi]⟩
def mvM : Movie := ⟨3, "M", [gDrama, gCrime], [lEnglish]⟩
def mvN : Movie := ⟨4, "N", [gDrama], [lEnglish]⟩
def uAlice : User := ⟨1, "alice", true, [gAction], [lEnglish], [], ∅, none⟩
def uBob : User := ⟨2, "bob", true, [], [lEnglish], [mvM], ∅, none⟩
def uCarol : User := ⟨3, "carol", false, [], [], [], ∅, none⟩
def uDave : User := ⟨4, "dave", true, [gAction], [], [], ∅, none⟩
def revInit : Review := ⟨1, PyVal.intVal 5, some "good", 1, 1⟩
def catW : Catalog := ⟨[gAction, gDrama, gCrime], [lEnglish, lHindi], [mvA, mvB, mvM, mvN]⟩

/-- The effect on the user's preference relation of having selected one more
genre in the survey form: the `preferred_genres` collection gains that genre. -/
def addPreferredGenre (u : User) (g : Genre) : User :=
  { u with preferredGenres := u.preferredGenres ++ [g] }

/-! Helper lemmas about the descending insertion sort. -/

theorem mem_insertDesc {p q : Movie × Nat} {l : List (Movie × Nat)} :
    q ∈ insertDesc p l ↔ q = p ∨ q ∈ l := by
  induction l with
  | nil => simp [insertDesc]
  | cons a as ih =>
    simp only [insertDesc]
    split
    · simp [List.mem_cons]
    · simp only [List.mem_cons, ih]
      tauto

theorem mem_sortDesc {q : Movie × Nat} {l : List (Movie × Nat)} :
    q ∈ sortDesc l ↔ q ∈ l := by
  induction l with
  | nil => simp [sortDesc]
  | cons a as ih => simp [sortDesc, mem_insertDesc, ih]

theorem sorted_insertDesc (p : Movie × Nat) {l : List (Movie × Nat)}
    (h : List.Sorted (fun a b : Movie × Nat => b.2 ≤ a.2) l) :
    List.Sorted (fun a b : Movie × Nat => b.2 ≤ a.2) (insertDesc p l) := by
  induction l with
  | nil => simp [insertDesc]
  | cons a as ih =>
    rw [List.sorted_cons] at h
    simp only [insertDesc]
    split
    · next hle =>
      rw [List.sorted_cons]
      refine ⟨?_, List.sorted_cons.mpr h⟩
      intro b hb
      rcases List.mem_cons.mp hb with rfl | hb2
      · exact hle
      · exact le_trans (h.1 b hb2) hle
    · next hgt =>
      rw [List.sorted_cons]
      refine ⟨?_, ih h.2⟩
      intro b hb
      rcases mem_insertDesc.mp hb with rfl | hb2
      · exact le_of_not_le hgt
      · exact h.1 b hb2

theorem sorted_sortDesc (l : List (Movie × Nat)) :
    List.Sorted (fun a b : Movie × Nat => b.2 ≤ a.2) (sortDesc l) := by
  induction l with
  | nil => simp [sortDesc]
  | cons a as ih => exact sorted_insertDesc a ih

/-- Membership in the scored candidate list characterised: exactly the
language-matching, not-liked movies with positive score, paired with it. -/
theorem mem_scoredList {catalog : List Movie} {u : User} {p : Movie × Nat} :
    p ∈ scoredList catalog u ↔
      p.1 ∈ candidateMovies catalog u ∧ p.1.id ∉ likedMovieIds u ∧
        p.2 = movieScore (userPrefGenreIds u) (seedMovieGenreIds u) p.1 ∧ 0 < p.2 := by
  rcases p with ⟨m, s⟩
  constructor
  · intro hp
    obtain ⟨a, ha, hf⟩ := List.mem_filterMap.mp hp
    by_cases hl : a.id ∈ likedMovieIds u
    · rw [if_pos hl] at hf
      simp at hf
    · rw [if_neg hl] at hf
      by_cases hs : 0 < movieScore (userPrefGenreIds u) (seedMovieGenreIds u) a
      · rw [if_pos hs] at hf
        obtain ⟨rfl, rfl⟩ : a = m ∧ movieScore (userPrefGenreIds u) (seedMovieGenreIds u) a = s := by
          have := Option.some.inj hf
          exact ⟨congrArg Prod.fst this, congrArg Prod.snd this⟩
        exact ⟨ha, hl, rfl, hs⟩
      · rw [if_neg hs] at hf
        simp at hf
  · rintro ⟨h1, h2, h3, h4⟩
    refine List.mem_filterMap.mpr ⟨m, h1, ?_⟩
    have hs : s = movieScore (userPrefGenreIds u) (seedMovieGenreIds u) m := h3
    rw [if_neg h2, if_pos (h3 ▸ h4), hs]

/-- Claim C1: every pair produced by the recommendations operation scores its
movie as 10 times the preferred-genre overlap plus 5 times the liked-movie
genre overlap, pairs scoring 0 are excluded, and the output is sorted in
descending order of score. -/
theorem recommendations_score_formula_and_order (catalog : List Movie) (u : User) :
    (∀ p ∈ recommendList catalog u,
        p.2 = (userPrefGenreIds u ∩ movieGenreIds p.1).card * 10 +
              (seedMovieGenreIds u ∩ movieGenreIds p.1).card * 5 ∧ p.2 ≠ 0) ∧
    List.Sorted (fun a b : Movie × Nat => b.2 ≤ a.2) (recommendList catalog u) := by
  constructor
  · intro p hp
    rw [recommendList, mem_sortDesc] at hp
    obtain ⟨-, -, h3, h4⟩ := mem_scoredList.mp hp
    exact ⟨h3, Nat.pos_iff_ne_zero.mp h4⟩
  · exact sorted_sortDesc _

/-- Witness for C1 on the spec's scenario: Alice prefers English and Action;
movie A (English, Action) is recommended with score 10. -/
theorem recommendations_score_formula_and_order_witness :
    ((mvA, 10) : Movie × Nat).2 =
        (userPrefGenreIds uAlice ∩ movieGenreIds mvA).card * 10 +
        (seedMovieGenreIds uAlice ∩ movieGenreIds mvA).card * 5 ∧
      ((mvA, 10) : Movie × Nat).2 ≠ 0 :=
  (recommendations_score_formula_and_order [mvA, mvB] uAlice).1 (mvA, 10) (by decide)

/-- Claim C2: a movie in the user's liked set never appears in the
recommendations output, with any score. -/
theorem liked_movie_never_recommended (catalog : List Movie) (u : User) (m : Movie)
    (hm : m ∈ u.likedMovies) (s : Nat) : (m, s) ∉ recommendList catalog u := by
  intro hmem
  rw [recommendList, mem_sortDesc] at hmem
  obtain ⟨-, h2, -, -⟩ := mem_scoredList.mp hmem
  refine h2 ?_
  simp only [likedMovieIds, List.mem_toFinset, List.mem_map]
  exact ⟨m, hm, rfl⟩

/-- Witness for C2: Bob's liked movie M is not in his recommendations even
though it scores 10 there. -/
theorem liked_movie_never_recommended_witness :
    (mvM, 10) ∉ recommendList [mvM, mvN] uBob :=
  liked_movie_never_recommended [mvM, mvN] uBob mvM (by decide) 10

/-- Claim C3: a survey-complete user with an empty preferred-language set
gets the rendered page with an empty recommendation list — no fallback. -/
theorem empty_languages_give_empty_recommendations (catalog : List Movie) (u : User)
    (hs : u.hasCompletedSurvey = true) (hl : u.preferredLanguages = []) :
    recommendationsRoute catalog u = RecsResult.page [] := by
  have hc : candidateMovies catalog u = [] := by
    refine List.filter_eq_nil_iff.mpr ?_
    intro m hm
    simp [userPrefLangIds, hl]
  rw [recommendationsRoute, recommendList, scoredList, hc]
  simp [hs, sortDesc]

/-- Witness for C3 at a concrete user with no preferred languages. -/
theorem empty_languages_give_empty_recommendations_witness :
    recommendationsRoute [mvA, mvB] uDave = RecsResult.page [] :=
  empty_languages_give_empty_recommendations [mvA, mvB] uDave rfl rfl

/-- Claim C4: a movie whose language set does not intersect the user's
preferred languages never appears in the recommendations output. -/
theorem wrong_language_never_recommended (catalog : List Movie) (u : User) (m : Movie)
    (h : movieLangIds m ∩ userPrefLangIds u = ∅) (s : Nat) :
    (m, s) ∉ recommendList catalog u := by
  intro hmem
  rw [recommendList, mem_sortDesc] at hmem
  obtain ⟨h1, -, -, -⟩ := mem_scoredList.mp hmem
  rw [candidateMovies, List.mem_filter] at h1
  have h2 := of_decide_eq_true h1.2
  rw [h] at h2
  exact Finset.not_nonempty_empty h2

/-- Witness for C4: Hindi-only movie B never reaches Alice, who prefers only
English, despite the full Action-genre overlap. -/
theorem wrong_language_never_recommended_witness :
    (mvB, 10) ∉ recommendList [mvA, mvB] uAlice :=
  wrong_language_never_recommended [mvA, mvB] uAlice mvB (by decide) 10

/-- Claim C5: the per-candidate score is monotone in the user's
preferred-genre set — adding a genre never lowers any movie's score. -/
theorem score_monotone_in_preferred_genres (u : User) (g : Genre) (m : Movie) :
    movieScore (userPrefGenreIds u) (seedMovieGenreIds u) m ≤
      movieScore (userPrefGenreIds (addPreferredGenre u g))
        (seedMovieGenreIds (addPreferredGenre u g)) m := by
  have hseed : seedMovieGenreIds (addPreferredGenre u g) = seedMovieGenreIds u := rfl
  have hpref : userPrefGenreIds u ⊆ userPrefGenreIds (addPreferredGenre u g) := by
    intro x hx
    simp only [userPrefGenreIds, addPreferredGenre, List.map_append, List.toFinset_append,
      Finset.mem_union]
    exact Or.inl hx
  rw [hseed]
  unfold movieScore
  refine Nat.add_le_add (Nat.mul_le_mul_right _ ?_) (le_refl _)
  exact Finset.card_le_card (Finset.inter_subset_inter hpref (Finset.Subset.refl _))

/-- Claim C6: a successful review submission followed by reading the movie's
reviews yields exactly one review by that user, carrying the submitted
(converted) rating and text; a second submission by the same user for the
same movie is rejected with the duplicate flash and leaves the list
unchanged; and every submission preserves the at-most-one-review-per-
(user, movie) invariant. -/
theorem review_roundtrip_and_uniqueness (reviews : List Review)
    (userId movieId nextId : Nat) (s t : String) (n : Int)
    (hnone : reviews.find? (fun r => r.movieId == movieId && r.userId == userId) = none)
    (hs : s ≠ "") (hn : pyInt s = some n) :
    ((movieDetailPost reviews userId movieId nextId ⟨some s, some t⟩).2.filter
        (fun r => r.movieId == movieId && r.userId == userId) =
      [⟨nextId, PyVal.intVal n, some t, userId, movieId⟩]) ∧
    (movieDetailPost reviews userId movieId nextId ⟨some s, some t⟩).1 =
      Response.flashRedirect "Your review has been submitted!" "success" ∧
    (∀ (form2 : ReviewForm) (nid2 : Nat),
      movieDetailPost (movieDetailPost reviews userId movieId nextId ⟨some s, some t⟩).2
          userId movieId nid2 form2 =
        (Response.flashRedirect
          "You have already reviewed this movie. You can edit your existing review." "error",
         (movieDetailPost reviews userId movieId nextId ⟨some s, some t⟩).2)) ∧
    (∀ (rs : List Review) (uid mid nid : Nat) (form : ReviewForm),
      atMostOnePerPair rs → atMostOnePerPair (movieDetailPost rs uid mid nid form).2) := by
  have hbeq : (s == "") = false := by simp [hs]
  have hres : movieDetailPost reviews userId movieId nextId ⟨some s, some t⟩ =
      (Response.flashRedirect "Your review has been submitted!" "success",
       reviews ++ [⟨nextId, PyVal.intVal n, some t, userId, movieId⟩]) := by
    simp [movieDetailPost, hnone, hbeq, hn]
  have hfilter : reviews.filter (fun r => r.movieId == movieId && r.userId == userId) = [] := by
    rw [List.filter_eq_nil_iff]
    intro a ha
    simpa using List.find?_eq_none.mp hnone a ha
  refine ⟨?_, ?_, ?_, ?_⟩
  · rw [hres]
    simp [List.filter_append, hfilter]
  · rw [hres]
  · intro form2 nid2
    rw [hres]
    have hfind : ((reviews ++ [(⟨nextId, PyVal.intVal n, some t, userId, movieId⟩ : Review)]).find?
        (fun r => r.movieId == movieId && r.userId == userId)) =
        some (⟨nextId, PyVal.intVal n, some t, userId, movieId⟩ : Review) := by
      rw [List.find?_append, hnone]
      simp
    simp only [movieDetailPost, hfind]
  · intro rs uid mid nid form hinv
    rcases form with ⟨orating, otext⟩
    cases hfind : rs.find? (fun r => r.movieId == mid && r.userId == uid) with
    | some rv =>
      simpa only [movieDetailPost, hfind] using hinv
    | none =>
      cases orating with
      | none => simpa only [movieDetailPost, hfind] using hinv
      | some str =>
        by_cases hstr : (str == "") = true
        · simp only [movieDetailPost, hfind, hstr, if_true]
          exact hinv
        · cases hint : pyInt str with
          | none =>
            simp only [movieDetailPost, hfind, hint, Bool.not_eq_true] at hstr ⊢
            simp only [hstr, Bool.false_eq_true, if_false]
            exact hinv
          | some k =>
            simp only [movieDetailPost, hfind, hint, Bool.not_eq_true] at hstr ⊢
            simp only [hstr, Bool.false_eq_true, if_false]
            rw [atMostOnePerPair, List.pairwise_append]
            refine ⟨hinv, List.pairwise_singleton _ _, ?_⟩
            intro a ha b hb
            rw [List.mem_singleton] at hb
            subst hb
            have hna := List.find?_eq_none.mp hfind a ha
            simp only [Bool.and_eq_true, beq_iff_eq, not_and] at hna
            rintro ⟨hu, hm2⟩
            exact hna hm2 hu

/-- Witness for C6: on an empty review table, user 1 reviews movie 2 with
rating "5" and text "nice"; reading back yields that one review. -/
theorem review_roundtrip_and_uniqueness_witness :
    (movieDetailPost [] 1 2 1 ⟨some "5", some "nice"⟩).2.filter
        (fun r => r.movieId == 2 && r.userId == 1) =
      [⟨1, PyVal.intVal 5, some "nice", 1, 2⟩] :=
  (review_roundtrip_and_uniqueness [] 1 2 1 "5" "nice" 5 rfl (by decide) (by decide)).1

/-- Counterexample to Claim C7 as stated: a review EDIT with a missing rating
field goes through `request.form['rating']`, whose missing-key lookup raises
and surfaces as HTTP 400 — not a user-facing flash message and redirect. -/
theorem edit_missing_rating_gives_http_400 :
    editReviewPost [revInit] 1 1 ⟨none, some "txt"⟩ = (Response.httpError 400, [revInit]) := by
  rfl

/-- Claim C7 (amended): a review submission with a missing or empty rating, a
duplicate review submission, and a registration with a duplicate username
each respond with a user-facing flash message and a redirect, leaving state
unchanged; a review edit with a missing rating instead fails with HTTP 400
(the bracket form lookup raises), with state likewise unchanged. -/
theorem validation_failures_flash_and_redirect
    (reviews : List Review) (users : List User) (uid mid nid rid : Nat)
    (uname pw : String) (form : ReviewForm) :
    ((form.rating = none ∨ form.rating = some "") →
      reviews.find? (fun r => r.movieId == mid && r.userId == uid) = none →
      movieDetailPost reviews uid mid nid form =
        (Response.flashRedirect "You must provide a rating." "error", reviews)) ∧
    (∀ rv : Review, reviews.find? (fun r => r.movieId == mid && r.userId == uid) = some rv →
      movieDetailPost reviews uid mid nid form =
        (Response.flashRedirect
          "You have already reviewed this movie. You can edit your existing review." "error",
         reviews)) ∧
    (users.any (fun u => u.username == uname) = true →
      registerPost users uname pw =
        (Response.flashRedirect "Username already exists." "error", users)) ∧
    (∀ rv : Review, reviews.find? (fun r => r.id == rid) = some rv →
      rv.userId = uid → form.rating = none →
      editReviewPost reviews uid rid form = (Response.httpError 400, reviews)) := by
  refine ⟨?_, ?_, ?_, ?_⟩
  · rintro (h | h) hnone
    · simp [movieDetailPost, hnone, h]
    · simp [movieDetailPost, hnone, h]
  · intro rv hfind
    simp [movieDetailPost, hfind]
  · intro hdup
    simp [registerPost, hdup]
  · intro rv hfind hauthor hrat
    simp [editReviewPost, hfind, hauthor, hrat]

/-- Witness for C7 (amended) at concrete requests: blank-rating submission,
duplicate-username registration, and missing-rating edit. -/
theorem validation_failures_flash_and_redirect_witness :
    movieDetailPost [] 1 2 1 ⟨none, some "txt"⟩ =
      (Response.flashRedirect "You must provide a rating." "error", []) ∧
    registerPost [uAlice] "alice" "pw" =
      (Response.flashRedirect "Username already exists." "error", [uAlice]) ∧
    editReviewPost [revInit] 1 1 ⟨none, none⟩ = (Response.httpError 400, [revInit]) := by
  refine ⟨?_, ?_, ?_⟩
  · exact (validation_failures_flash_and_redirect [] [] 1 2 1 0 "x" "x"
      ⟨none, some "txt"⟩).1 (Or.inl rfl) rfl
  · exact (validation_failures_flash_and_redirect [] [uAlice] 1 2 1 0 "alice" "pw"
      ⟨none, none⟩).2.2.1 (by decide)
  · exact (validation_failures_flash_and_redirect [revInit] [] 1 1 1 1 "x" "x"
      ⟨none, none⟩).2.2.2 revInit rfl rfl rfl

/-- Claim C8 fails on `edit_review` for non-integer rating text:
`review.rating = request.form['rating']` has no `int(...)` conversion, and
while SQLite's INTEGER affinity converts well-formed integer text such as
"4" to an integer on commit, editing review 1 with rating "abc" persists the
STRING "abc" — not an integer — although the column is declared
`db.Integer` and the submission path always converts with `int(...)`. -/
theorem edit_review_rating_integer_only_for_integer_text :
    (editReviewPost [revInit] 1 1 ⟨some "abc", some "nice"⟩).2 =
      [⟨1, PyVal.strVal "abc", some "nice", 1, 1⟩] ∧
    (editReviewPost [revInit] 1 1 ⟨some "4", some "nice"⟩).2 =
      [⟨1, PyVal.intVal 4, some "nice", 1, 1⟩] ∧
    (movieDetailPost [] 1 1 1 ⟨some "4", some "nice"⟩).2 =
      [⟨1, PyVal.intVal 4, some "nice", 1, 1⟩] := by
  exact ⟨by decide, by decide, by decide⟩

/-- The watchlist after a toggle, as a conditional rewrite. -/
theorem toggleWatchlist_watchlist (u : User) (m : Movie) :
    (toggleWatchlist u m).watchlist =
      if m ∈ u.watchlist then u.watchlist.erase m else insert m u.watchlist := by
  unfold toggleWatchlist
  split <;> rfl

/-- Claim C9: toggling removes a present movie and adds an absent one, so
toggling twice restores the watchlist's original contents; and a toggle
changes no user field other than the watchlist, and no other movie's
membership in it. -/
theorem toggle_watchlist_involution_and_frame (u : User) (m : Movie) :
    (toggleWatchlist (toggleWatchlist u m) m).watchlist = u.watchlist ∧
    (m ∈ u.watchlist → (toggleWatchlist u m).watchlist = u.watchlist.erase m) ∧
    (m ∉ u.watchlist → (toggleWatchlist u m).watchlist = insert m u.watchlist) ∧
    (∀ m' : Movie, m' ≠ m → (m' ∈ (toggleWatchlist u m).watchlist ↔ m' ∈ u.watchlist)) ∧
    (toggleWatchlist u m).id = u.id ∧
    (toggleWatchlist u m).username = u.username ∧
    (toggleWatchlist u m).hasCompletedSurvey = u.hasCompletedSurvey ∧
    (toggleWatchlist u m).preferredGenres = u.preferredGenres ∧
    (toggleWatchlist u m).preferredLanguages = u.preferredLanguages ∧
    (toggleWatchlist u m).likedMovies = u.likedMovies ∧
    (toggleWatchlist u m).bio = u.bio := by
  refine ⟨?_, ?_, ?_, ?_, ?_, ?_, ?_, ?_, ?_, ?_, ?_⟩
  · by_cases hm : m ∈ u.watchlist
    · have h1 : (toggleWatchlist u m).watchlist = u.watchlist.erase m := by
        rw [toggleWatchlist_watchlist, if_pos hm]
      have h2 : m ∉ (toggleWatchlist u m).watchlist := by
        rw [h1]; exact Finset.not_mem_erase m u.watchlist
      rw [toggleWatchlist_watchlist, if_neg h2, h1, Finset.insert_erase hm]
    · have h1 : (toggleWatchlist u m).watchlist = insert m u.watchlist := by
        rw [toggleWatchlist_watchlist, if_neg hm]
      have h2 : m ∈ (toggleWatchlist u m).watchlist := by
        rw [h1]; exact Finset.mem_insert_self m u.watchlist
      rw [toggleWatchlist_watchlist, if_pos h2, h1, Finset.erase_insert hm]
  · intro hm; rw [toggleWatchlist_watchlist, if_pos hm]
  · intro hm; rw [toggleWatchlist_watchlist, if_neg hm]
  · intro m' hne
    rw [toggleWatchlist_watchlist]
    split
    · rw [Finset.mem_erase]; simp [hne]
    · rw [Finset.mem_insert]; simp [hne]
  · unfold toggleWatchlist; split <;> rfl
  · unfold toggleWatchlist; split <;> rfl
  · unfold toggleWatchlist; split <;> rfl
  · unfold toggleWatchlist; split <;> rfl
  · unfold toggleWatchlist; split <;> rfl
  · unfold toggleWatchlist; split <;> rfl
  · unfold toggleWatchlist; split <;> rfl

/-- Witness for C9: Alice's empty watchlist gains movie A and a second
toggle restores it. -/
theorem toggle_watchlist_involution_and_frame_witness :
    (toggleWatchlist (toggleWatchlist uAlice mvA) mvA).watchlist = uAlice.watchlist ∧
    (toggleWatchlist uAlice mvA).watchlist = insert mvA uAlice.watchlist := by
  have h := toggle_watchlist_involution_and_frame uAlice mvA
  exact ⟨h.1, h.2.2.1 (by decide)⟩

/-- Claim C10: the survey POST replaces each preference collection wholesale
with exactly the catalog entities whose ids were selected, sets the
survey-completion flag, and a user whose flag is unset is redirected from
the recommendations route to the survey before any scoring. -/
theorem survey_replaces_preferences (cat : Catalog) (u : User)
    (langIds genreIds movieIds : List Nat) :
    (∀ l : Language, l ∈ (surveyPost cat u langIds genreIds movieIds).preferredLanguages ↔
        l ∈ cat.languages ∧ l.id ∈ langIds) ∧
    (∀ g : Genre, g ∈ (surveyPost cat u langIds genreIds movieIds).preferredGenres ↔
        g ∈ cat.genres ∧ g.id ∈ genreIds) ∧
    (∀ m : Movie, m ∈ (surveyPost cat u langIds genreIds movieIds).likedMovies ↔
        m ∈ cat.movies ∧ m.id ∈ movieIds) ∧
    (surveyPost cat u langIds genreIds movieIds).hasCompletedSurvey = true ∧
    (∀ u2 : User, u2.hasCompletedSurvey = false →
        recommendationsRoute cat.movies u2 = RecsResult.redirectSurvey) := by
  refine ⟨?_, ?_, ?_, rfl, ?_⟩
  · intro l
    simp [surveyPost, List.mem_filter, List.elem_iff]
  · intro g
    simp [surveyPost, List.mem_filter, List.elem_iff]
  · intro m
    simp [surveyPost, List.mem_filter, List.elem_iff]
  · intro u2 h2
    rw [recommendationsRoute, if_neg (by simp [h2])]

/-- Witness for C10: Carol (survey not completed) submits languages {1},
genres {1}, movies {3}; the stored genre set is exactly {Action}, the flag is
set, and before submitting she was redirected from recommendations. -/
theorem survey_replaces_preferences_witness :
    (gAction ∈ (surveyPost catW uCarol [1] [1] [3]).preferredGenres ↔
      gAction ∈ catW.genres ∧ gAction.id ∈ [1]) ∧
    (surveyPost catW uCarol [1] [1] [3]).hasCompletedSurvey = true ∧
    recommendationsRoute catW.movies uCarol = RecsResult.redirectSurvey := by
  have h := survey_replaces_preferences catW uCarol [1] [1] [3]
  exact ⟨h.2.1 gAction, h.2.2.2.1, h.2.2.2.2 uCarol rfl⟩

end CineSuggest
